import Mathlib

/-!
Verification of the orbital-motion and auto-framing engine of the
`avatar` repository (`src/components/cybernetic/SolarSystem.tsx`).

The embedding mirrors the source: planet configurations are records with
optional fields, the two rotation pipelines (orbit-path sampler and the
per-frame position evaluator) are modelled with explicit 3x3 rotation
matrices built in the same multiplication order as the source's
`THREE.Matrix4` chains, the viewport auto-fit scaler is the arithmetic of
`autoScale`, and the per-frame tick is a fold over the planet list that
skips bodies whose presentation handle is absent.  Machine floats are
modelled by the reals; the JavaScript `%` operator (truncated remainder)
is modelled by `jsMod1`.
-/

namespace Solar

open Real

/-- Three-dimensional vector, mirroring `THREE.Vector3` as used by the
source (only construction and matrix application are needed). -/
@[ext]
structure Vec3 where
  x : ℝ
  y : ℝ
  z : ℝ


/-- A 3x3 matrix, mirroring the rotation part of `THREE.Matrix4` (the
source only ever builds pure rotations, whose fourth homogeneous row and
column are the identity, so the 3x3 block carries all information). -/
structure Mat3 where
  m00 : ℝ
  m01 : ℝ
  m02 : ℝ
  m10 : ℝ
  m11 : ℝ
  m12 : ℝ
  m20 : ℝ
  m21 : ℝ
  m22 : ℝ

/-- Matrix product, mirroring `THREE.Matrix4.multiply` (`this * m`). -/
def Mat3.mul (lhs rhs : Mat3) : Mat3 where
  m00 := lhs.m00 * rhs.m00 + lhs.m01 * rhs.m10 + lhs.m02 * rhs.m20
  m01 := lhs.m00 * rhs.m01 + lhs.m01 * rhs.m11 + lhs.m02 * rhs.m21
  m02 := lhs.m00 * rhs.m02 + lhs.m01 * rhs.m12 + lhs.m02 * rhs.m22
  m10 := lhs.m10 * rhs.m00 + lhs.m11 * rhs.m10 + lhs.m12 * rhs.m20
  m11 := lhs.m10 * rhs.m01 + lhs.m11 * rhs.m11 + lhs.m12 * rhs.m21
  m12 := lhs.m10 * rhs.m02 + lhs.m11 * rhs.m12 + lhs.m12 * rhs.m22
  m20 := lhs.m20 * rhs.m00 + lhs.m21 * rhs.m10 + lhs.m22 * rhs.m20
  m21 := lhs.m20 * rhs.m01 + lhs.m21 * rhs.m11 + lhs.m22 * rhs.m21
  m22 := lhs.m20 * rhs.m02 + lhs.m21 * rhs.m12 + lhs.m22 * rhs.m22

/-- Matrix applied to a vector, mirroring `THREE.Vector3.applyMatrix4`
restricted to rotations (homogeneous `w` stays 1). -/
def Mat3.mulVec (m : Mat3) (v : Vec3) : Vec3 where
  x := m.m00 * v.x + m.m01 * v.y + m.m02 * v.z
  y := m.m10 * v.x + m.m11 * v.y + m.m12 * v.z
  z := m.m20 * v.x + m.m21 * v.y + m.m22 * v.z

/-- Rotation about the vertical axis, `THREE.Matrix4.makeRotationY`. -/
noncomputable def makeRotationY (t : ℝ) : Mat3 :=
  ⟨Real.cos t, 0, Real.sin t,
   0, 1, 0,
   -Real.sin t, 0, Real.cos t⟩

/-- Rotation about the horizontal axis, `THREE.Matrix4.makeRotationX`. -/
noncomputable def makeRotationX (t : ℝ) : Mat3 :=
  ⟨1, 0, 0,
   0, Real.cos t, -Real.sin t,
   0, Real.sin t, Real.cos t⟩

/-- Rotation about the depth axis, `THREE.Matrix4.makeRotationZ`. -/
noncomputable def makeRotationZ (t : ℝ) : Mat3 :=
  ⟨Real.cos t, -Real.sin t, 0,
   Real.sin t, Real.cos t, 0,
   0, 0, 1⟩

/-- Sense of revolution, the source type `1 | -1`. -/
inductive Dir where
  | cw
  | ccw
deriving DecidableEq

/-- Numeric value of a direction (`1` or `-1`). -/
def Dir.val : Dir → ℝ
  | .cw => 1
  | .ccw => -1

/-- Integer value of a direction, used for periodicity reasoning. -/
def Dir.toInt : Dir → ℤ
  | .cw => 1
  | .ccw => -1

/-- Orbital-plane screen orientation (`'horizontal' | 'vertical' |
'diagonal'` in the source). -/
inductive PlaneOrientation where
  | horizontal
  | vertical
  | diagonal
deriving DecidableEq

/-- Cosmetic ring annotation (the `ring` field of `PlanetConfig`). -/
structure RingCfg where
  inner : ℝ
  outer : ℝ
  color : String
  opacity : Option ℝ


/-- Per-body configuration, mirroring the source interface
`PlanetConfig` field for field; optional fields are `Option`s with the
source's `?? d` defaults applied at use sites. -/
structure PlanetConfig where
  name : String
  color : String
  radius : ℝ
  a : ℝ
  e : ℝ
  period : ℝ
  inclination : ℝ
  lonOfNode : ℝ
  argOfPeriapsis : Option ℝ
  phase : Option ℝ
  showOrbit : Option Bool
  direction : Option Dir
  orientation : Option PlaneOrientation
  ring : Option RingCfg


/-- Degrees to radians, `THREE.MathUtils.degToRad`. -/
noncomputable def degToRad (d : ℝ) : ℝ := d * (Real.pi / 180)

/-- Built-in body Mercury (SolarSystem.tsx line 45). -/
noncomputable def mercury : PlanetConfig :=
  { name := "Mercury", color := "#b5b5b5", radius := 0.04, a := 1.0, e := 0.205,
    period := 45, inclination := degToRad 7, lonOfNode := degToRad 48,
    argOfPeriapsis := some (degToRad 29), phase := some 0, showOrbit := some true,
    direction := some .cw, orientation := some .horizontal, ring := none }

/-- Built-in body Venus (line 46). -/
noncomputable def venus : PlanetConfig :=
  { name := "Venus", color := "#e3c16f", radius := 0.085, a := 1.4, e := 0.007,
    period := 80, inclination := degToRad 3.4, lonOfNode := degToRad 76,
    argOfPeriapsis := some (degToRad 55), phase := some 0.2, showOrbit := some true,
    direction := some .ccw, orientation := some .vertical, ring := none }

/-- Built-in body Earth (line 47). -/
noncomputable def earth : PlanetConfig :=
  { name := "Earth", color := "#4ea1d3", radius := 0.09, a := 1.9, e := 0.017,
    period := 120, inclination := degToRad 0, lonOfNode := degToRad (-11),
    argOfPeriapsis := some (degToRad 102), phase := some 0.7, showOrbit := some true,
    direction := some .cw, orientation := some .horizontal, ring := none }

/-- Built-in body Mars (line 48). -/
noncomputable def mars : PlanetConfig :=
  { name := "Mars", color := "#d2653a", radius := 0.06, a := 2.5, e := 0.093,
    period := 180, inclination := degToRad 1.85, lonOfNode := degToRad 49,
    argOfPeriapsis := some (degToRad 286), phase := some 1.2, showOrbit := some true,
    direction := some .ccw, orientation := some .vertical, ring := none }

/-- Built-in body Jupiter (line 49). -/
noncomputable def jupiter : PlanetConfig :=
  { name := "Jupiter", color := "#d8b38a", radius := 0.18, a := 3.3, e := 0.049,
    period := 360, inclination := degToRad 1.3, lonOfNode := degToRad 100,
    argOfPeriapsis := some (degToRad 275), phase := some 2.0, showOrbit := some true,
    direction := some .cw, orientation := some .diagonal, ring := none }

/-- Built-in body Saturn (lines 50-51), the only ringed body. -/
noncomputable def saturn : PlanetConfig :=
  { name := "Saturn", color := "#e4cf9f", radius := 0.16, a := 4.2, e := 0.056,
    period := 520, inclination := degToRad 2.5, lonOfNode := degToRad 113,
    argOfPeriapsis := some (degToRad 339), phase := some 2.8, showOrbit := some true,
    direction := some .ccw, orientation := some .horizontal,
    ring := some { inner := 0.22, outer := 0.35, color := "#ccb98a", opacity := some 0.35 } }

/-- Built-in body Uranus (line 52). -/
noncomputable def uranus : PlanetConfig :=
  { name := "Uranus", color := "#8fd6d6", radius := 0.12, a := 5.2, e := 0.047,
    period := 800, inclination := degToRad 0.8, lonOfNode := degToRad 74,
    argOfPeriapsis := some (degToRad 96), phase := some 3.6, showOrbit := some true,
    direction := some .cw, orientation := some .vertical, ring := none }

/-- Built-in body Neptune (line 53). -/
noncomputable def neptune : PlanetConfig :=
  { name := "Neptune", color := "#5a7fe8", radius := 0.11, a := 6.4, e := 0.009,
    period := 1100, inclination := degToRad 1.8, lonOfNode := degToRad 131,
    argOfPeriapsis := some (degToRad 273), phase := some 4.4, showOrbit := some true,
    direction := some .ccw, orientation := some .diagonal, ring := none }

/-- The built-in planet configuration (the `planets` memo, lines 43-54). -/
noncomputable def planets : List PlanetConfig :=
  [mercury, venus, earth, mars, jupiter, saturn, uranus, neptune]

/-- Configuration load as the source performs it: the memo returns the
configured list directly, with no validation and no clamping
(SolarSystem.tsx lines 43-54); loading is the identity on the list. -/
def loadConfig (ps : List PlanetConfig) : List PlanetConfig := ps

/-- Validity of a body per the spec invariant (`0 ≤ e < 1`, `a > 0`,
`period > 0`); stated from the spec for comparison with `loadConfig`,
which the source implements without any such check. -/
def specValidBody (p : PlanetConfig) : Prop :=
  0 ≤ p.e ∧ p.e < 1 ∧ 0 < p.a ∧ 0 < p.period

/-- Largest semi-major axis of the configured bodies
(`planets.reduce((m, p) => Math.max(m, p.a), 0)`, line 58). -/
noncomputable def maxSemiMajor (ps : List PlanetConfig) : ℝ :=
  ps.foldl (fun m p => max m p.a) 0

/-- The viewport auto-fit scaler (the `autoScale` memo, lines 59-64),
parameterised as in the spec contract by viewport width and height, the
largest semi-major axis, and the fill fraction. -/
noncomputable def computeScale (w h maxA fill : ℝ) : ℝ :=
  let clampedFill := min (max fill 0.2) 0.95
  let safety : ℝ := 0.9
  let targetRadius := min w h * (clampedFill * 0.5) * safety
  if 0 < maxA then targetRadius / maxA else 1

/-- JavaScript truncation toward zero (`Math.trunc`), the integer part
used by the `%` operator. -/
noncomputable def jsTrunc (x : ℝ) : ℤ :=
  if 0 ≤ x then ⌊x⌋ else ⌈x⌉

/-- JavaScript remainder by one (`x % 1`): truncated remainder, whose
sign follows the dividend. -/
noncomputable def jsMod1 (x : ℝ) : ℝ :=
  x - jsTrunc x

/-- Mean angular progress of a body
(`((t * speedFactor) / p.period) % 1`, line 109). -/
noncomputable def progressOf (p : PlanetConfig) (t sf : ℝ) : ℝ :=
  jsMod1 ((t * sf) / p.period)

/-- Parametric angle from a progress value
(`dir * (progress * Math.PI * 2) + (p.phase ?? 0)`, lines 108-110). -/
noncomputable def thetaFromProgress (p : PlanetConfig) (prog : ℝ) : ℝ :=
  (p.direction.getD .cw).val * (prog * Real.pi * 2) + p.phase.getD 0

/-- Parametric angle of a body at elapsed time `t` with speed factor
`sf` (lines 108-110). -/
noncomputable def evalTheta (p : PlanetConfig) (t sf : ℝ) : ℝ :=
  thetaFromProgress p (progressOf p t sf)

/-- Semi-minor axis (`b = p.a * Math.sqrt(1 - p.e * p.e)`, lines 77
and 111). -/
noncomputable def semiMinor (p : PlanetConfig) : ℝ :=
  p.a * Real.sqrt (1 - p.e * p.e)

/-- Unrotated ellipse point in the orbital plane
(`new THREE.Vector3(a * cos th, 0, b * sin th)`, lines 80-83 and
113-117). -/
noncomputable def planarPoint (p : PlanetConfig) (th : ℝ) : Vec3 :=
  ⟨p.a * Real.cos th, 0, semiMinor p * Real.sin th⟩

/-- Screen-orientation roll angle
(`orientation === 'vertical' ? PI/2 : orientation === 'diagonal' ? PI/4 : 0`,
lines 89 and 123). -/
noncomputable def rollOf : Option PlaneOrientation → ℝ
  | some .vertical => Real.pi / 2
  | some .diagonal => Real.pi / 4
  | _ => 0

/-- Rotation matrix built by the orbit-path sampler (lines 84-90):
`makeRotationY(argOfPeriapsis ?? 0).multiply(makeRotationX(inclination * tiltScale))
.multiply(makeRotationY(lonOfNode)).multiply(makeRotationZ(roll))`. -/
noncomputable def orbitRot (p : PlanetConfig) (tiltScale : ℝ) : Mat3 :=
  (((makeRotationY (p.argOfPeriapsis.getD 0)).mul
      (makeRotationX (p.inclination * tiltScale))).mul
    (makeRotationY p.lonOfNode)).mul
  (makeRotationZ (rollOf p.orientation))

/-- Rotation matrix built by the per-frame evaluator (lines 118-124);
textually the same chain as `orbitRot`, kept separate because the source
duplicates the construction at the two sites. -/
noncomputable def frameRot (p : PlanetConfig) (tiltScale : ℝ) : Mat3 :=
  (((makeRotationY (p.argOfPeriapsis.getD 0)).mul
      (makeRotationX (p.inclination * tiltScale))).mul
    (makeRotationY p.lonOfNode)).mul
  (makeRotationZ (rollOf p.orientation))

/-- World-space point on an orbit path at parametric angle `th`
(lines 78-92: planar point, then `v.applyMatrix4(m)`). -/
noncomputable def sampleWorldPoint (p : PlanetConfig) (tiltScale th : ℝ) : Vec3 :=
  (orbitRot p tiltScale).mulVec (planarPoint p th)

/-- Orbit polyline of one body: `segments + 1` points at
`th = (i / segments) * PI * 2` for `i = 0 .. segments` (lines 75-93; the
source fixes `segments = 256`, the spec contract parameterises it). -/
noncomputable def samplePath (p : PlanetConfig) (tiltScale : ℝ) (segments : ℕ) : List Vec3 :=
  (List.range (segments + 1)).map fun (i : ℕ) =>
    sampleWorldPoint p tiltScale (((i : ℝ) / (segments : ℝ)) * Real.pi * 2)

/-- Pre-scale world-space position used by the per-frame evaluator
(lines 111-125). -/
noncomputable def frameWorldPoint (p : PlanetConfig) (tiltScale th : ℝ) : Vec3 :=
  (frameRot p tiltScale).mulVec (planarPoint p th)

/-- Position written to a body's group on a frame tick
(`center + pos * computedScale` componentwise, lines 127-131); `cs` is
the computed scale (user scale times auto-fit scale) and `ts` the tilt
exaggeration factor. -/
noncomputable def evalPosition (p : PlanetConfig) (t sf ts cs : ℝ) (center : Vec3) : Vec3 :=
  let pos := frameWorldPoint p ts (evalTheta p t sf)
  ⟨center.x + pos.x * cs, center.y + pos.y * cs, center.z + pos.z * cs⟩

/-- Mutable state of a body's presentation handle (`THREE.Group`): the
world position and the accumulated self-rotation about the vertical
axis. -/
structure GroupState where
  position : Vec3
  rotationY : ℝ

/-- Per-frame update of one present handle: write the evaluated
position and add the fixed self-rotation increment (lines 127-134). -/
noncomputable def updateGroup (p : PlanetConfig) (t sf ts cs : ℝ) (center : Vec3)
    (g : GroupState) : GroupState :=
  ⟨evalPosition p t sf ts cs center, g.rotationY + 0.01⟩

/-- Body of the per-frame loop for one planet (lines 104-106 and
127-134): look up the presentation handle by name; when it is absent
(`if (!group) return`) leave the registry unchanged, otherwise update
that body's handle in place. -/
noncomputable def tickStep (t sf ts cs : ℝ) (center : Vec3)
    (r : String → Option GroupState) (p : PlanetConfig) : String → Option GroupState :=
  match r p.name with
  | none => r
  | some g => fun n =>
      if n = p.name then some (updateGroup p t sf ts cs center g) else r n

/-- One frame tick (lines 102-136): iterate over the configured bodies
in order, skipping bodies whose handle is absent and updating the
rest. -/
noncomputable def tick (ps : List PlanetConfig) (t sf ts cs : ℝ) (center : Vec3)
    (refs : String → Option GroupState) : String → Option GroupState :=
  ps.foldl (tickStep t sf ts cs center) refs

/-- Scenario body of the end-to-end test (spec section 8, property 7):
`{a:2, e:0, period:10, inclination:0, lonOfNode:0, argOfPeriapsis:0,
phase:0, direction:1}`. -/
noncomputable def bodyC5 : PlanetConfig :=
  { name := "demo", color := "", radius := 0.1, a := 2, e := 0, period := 10,
    inclination := 0, lonOfNode := 0, argOfPeriapsis := some 0, phase := some 0,
    showOrbit := some true, direction := some .cw, orientation := none, ring := none }

/-- Scenario body of the circular-orbit sanity test (spec section 8,
property 3): `a = 1, e = 0`, all angles zero, direction `1`. -/
noncomputable def bodyUnit : PlanetConfig :=
  { name := "unit", color := "", radius := 0.1, a := 1, e := 0, period := 1,
    inclination := 0, lonOfNode := 0, argOfPeriapsis := some 0, phase := some 0,
    showOrbit := some true, direction := some .cw, orientation := none, ring := none }

/-- A deliberately invalid configuration with eccentricity `e = 1.0`,
outside the spec invariant `0 ≤ e < 1`. -/
noncomputable def badBody : PlanetConfig :=
  { name := "Bad", color := "", radius := 1, a := 1, e := 1, period := 1,
    inclination := 0, lonOfNode := 0, argOfPeriapsis := none, phase := none,
    showOrbit := none, direction := none, orientation := none, ring := none }

/-- Minimal body named `A`, used to exercise the frame tick. -/
noncomputable def bodyA : PlanetConfig :=
  { name := "A", color := "", radius := 0.1, a := 1, e := 0, period := 1,
    inclination := 0, lonOfNode := 0, argOfPeriapsis := none, phase := none,
    showOrbit := none, direction := none, orientation := none, ring := none }

/-- Minimal body named `B`, used to exercise the frame tick. -/
noncomputable def bodyB : PlanetConfig :=
  { name := "B", color := "", radius := 0.1, a := 1, e := 0, period := 1,
    inclination := 0, lonOfNode := 0, argOfPeriapsis := none, phase := none,
    showOrbit := none, direction := none, orientation := none, ring := none }

/-- A handle registry in which body `B`'s handle is attached and every
other handle (in particular body `A`'s) is absent. -/
noncomputable def refsOnlyB : String → Option GroupState := fun n =>
  if n = "B" then some ⟨⟨0, 0, 0⟩, 0⟩ else none

/-- Squared Euclidean norm of a vector. -/
def normSq (v : Vec3) : ℝ := v.x ^ 2 + v.y ^ 2 + v.z ^ 2

/-- Euclidean distance between two points. -/
noncomputable def dist3 (u v : Vec3) : ℝ :=
  Real.sqrt ((u.x - v.x) ^ 2 + (u.y - v.y) ^ 2 + (u.z - v.z) ^ 2)

/-! Helper lemmas about the clamped fill fraction. -/

theorem clampedFill_pos (fill : ℝ) : 0 < min (max fill 0.2) 0.95 :=
  lt_min (lt_of_lt_of_le (by norm_num) (le_max_right fill 0.2)) (by norm_num)

/-- C1: the source never rejects an out-of-range configuration: the
body `badBody` with eccentricity `e = 1.0` (outside `[0, 1)`) passes
through configuration load unchanged — it is neither rejected nor
clamped. -/
theorem loadConfig_accepts_invalid_e :
    loadConfig [badBody] = [badBody] ∧ badBody.e = 1 ∧ ¬badBody.e < 1 := by
  refine ⟨rfl, rfl, ?_⟩
  simp only [badBody]
  norm_num

/-- C1 (amended): configuration load is the identity on the supplied
list — no body is ever rejected or clamped — and every built-in body
happens to satisfy the spec invariant `0 ≤ e < 1`, `a > 0`,
`period > 0`. -/
theorem loadConfig_id_and_builtin_valid :
    (∀ ps : List PlanetConfig, loadConfig ps = ps) ∧
    ∀ p ∈ planets, specValidBody p := by
  constructor
  · intro ps
    rfl
  · intro p hp
    simp only [planets, List.mem_cons, List.not_mem_nil, or_false] at hp
    rcases hp with rfl | rfl | rfl | rfl | rfl | rfl | rfl | rfl
    · norm_num [specValidBody, mercury]
    · norm_num [specValidBody, venus]
    · norm_num [specValidBody, earth]
    · norm_num [specValidBody, mars]
    · norm_num [specValidBody, jupiter]
    · norm_num [specValidBody, saturn]
    · norm_num [specValidBody, uranus]
    · norm_num [specValidBody, neptune]

/-- C1 witness: the amended theorem applied to the built-in body
Mercury. -/
theorem loadConfig_id_and_builtin_valid_witness :
    loadConfig [mercury] = [mercury] ∧ specValidBody mercury :=
  ⟨loadConfig_id_and_builtin_valid.1 [mercury],
   loadConfig_id_and_builtin_valid.2 mercury (by simp [planets])⟩

/-- C2 counterexample: for the degenerate viewport `width = 0`,
`height = 600` with `maxSemiMajorAxis = 6.4 > 0`, the scaler returns the
scale `0` — not a positive fallback as claimed. -/
theorem computeScale_degenerate_cex :
    computeScale 0 600 6.4 0.7 = 0 ∧ ¬0 < computeScale 0 600 6.4 0.7 := by
  have h : computeScale 0 600 6.4 0.7 = 0 := by
    simp only [computeScale]
    rw [if_pos (by norm_num : (0 : ℝ) < 6.4),
      min_eq_left (by norm_num : (0 : ℝ) ≤ 600)]
    norm_num
  exact ⟨h, by rw [h]; exact lt_irrefl 0⟩

/-- C2 (amended): on a degenerate viewport (width or height `≤ 0`) with
a positive largest semi-major axis, the scaler does not fall back to a
safe positive scale; it returns the ordinary formula value, which is
`≤ 0`.  (The division itself is guarded: the divisor is `maxA`, checked
positive, so no division by zero occurs; the fallback `1` is used only
when `maxA ≤ 0`.) -/
theorem computeScale_degenerate_nonpos (w h maxA fill : ℝ)
    (hdeg : w ≤ 0 ∨ h ≤ 0) (hA : 0 < maxA) :
    computeScale w h maxA fill ≤ 0 := by
  simp only [computeScale, if_pos hA]
  have hmin : min w h ≤ 0 := by
    rcases hdeg with h1 | h1
    · exact le_trans (min_le_left w h) h1
    · exact le_trans (min_le_right w h) h1
  have hc : (0 : ℝ) < min (max fill 0.2) 0.95 := clampedFill_pos fill
  apply div_nonpos_of_nonpos_of_nonneg _ hA.le
  nlinarith [mul_nonpos_of_nonpos_of_nonneg hmin hc.le]

/-- C2 witness: the amended theorem at the concrete degenerate viewport
`(0, 600)` with `maxA = 6.4`. -/
theorem computeScale_degenerate_nonpos_witness :
    computeScale 0 600 6.4 0.7 ≤ 0 :=
  computeScale_degenerate_nonpos 0 600 6.4 0.7 (Or.inl le_rfl) (by norm_num)

/-- C4: the scaler computes
`min(w, h) * clamp(fill, 0.2, 0.95) * 0.5 * 0.9 / maxA` whenever
`maxA > 0` and `1` otherwise; in particular the two viewport-resize
scenario values `29.53125` and `19.6875`. -/
theorem computeScale_formula_and_scenarios :
    (∀ w h maxA fill : ℝ, 0 < maxA →
      computeScale w h maxA fill =
        min w h * min (max fill 0.2) 0.95 * 0.5 * 0.9 / maxA) ∧
    (∀ w h maxA fill : ℝ, ¬0 < maxA → computeScale w h maxA fill = 1) ∧
    computeScale 800 600 6.4 0.7 = 29.53125 ∧
    computeScale 800 400 6.4 0.7 = 19.6875 := by
  have hform : ∀ w h maxA fill : ℝ, 0 < maxA →
      computeScale w h maxA fill =
        min w h * min (max fill 0.2) 0.95 * 0.5 * 0.9 / maxA := by
    intro w h maxA fill hA
    simp only [computeScale, if_pos hA]
    ring
  refine ⟨hform, ?_, ?_, ?_⟩
  · intro w h maxA fill hA
    simp only [computeScale, if_neg hA]
  · rw [hform 800 600 6.4 0.7 (by norm_num),
      min_eq_right (by norm_num : (600 : ℝ) ≤ 800),
      max_eq_left (by norm_num : (0.2 : ℝ) ≤ 0.7),
      min_eq_left (by norm_num : (0.7 : ℝ) ≤ 0.95)]
    norm_num
  · rw [hform 800 400 6.4 0.7 (by norm_num),
      min_eq_right (by norm_num : (400 : ℝ) ≤ 800),
      max_eq_left (by norm_num : (0.2 : ℝ) ≤ 0.7),
      min_eq_left (by norm_num : (0.7 : ℝ) ≤ 0.95)]
    norm_num

/-- C4 witness: the formula branch of the theorem instantiated at the
first scenario's inputs. -/
theorem computeScale_formula_witness :
    computeScale 800 600 6.4 0.7 =
      min (800 : ℝ) 600 * min (max (0.7 : ℝ) 0.2) 0.95 * 0.5 * 0.9 / 6.4 :=
  computeScale_formula_and_scenarios.1 800 600 6.4 0.7 (by norm_num)

/-- C7 counterexample: monotonicity in `maxSemiMajorAxis` fails on the
domain including `maxA = 0`: increasing `maxA` from `0` to `1` increases
the scale from the fallback `1` to `189`. -/
theorem computeScale_mono_cex :
    computeScale 800 600 0 0.7 < computeScale 800 600 1 0.7 := by
  have h0 : computeScale 800 600 0 0.7 = 1 := by
    simp only [computeScale]
    rw [if_neg (by norm_num : ¬(0 : ℝ) < 0)]
  have h1 : computeScale 800 600 1 0.7 = 189 := by
    simp only [computeScale]
    rw [if_pos (by norm_num : (0 : ℝ) < 1),
      min_eq_right (by norm_num : (600 : ℝ) ≤ 800),
      max_eq_left (by norm_num : (0.2 : ℝ) ≤ 0.7),
      min_eq_left (by norm_num : (0.7 : ℝ) ≤ 0.95)]
    norm_num
  rw [h0, h1]
  norm_num

/-- C7 (amended): the scaler is monotonically non-increasing in
`maxSemiMajorAxis` on the positive axis (given a nonnegative viewport
minimum), and monotonically non-decreasing in `min(width, height)`
everywhere; monotonicity can fail across `maxA = 0`, where the result
falls back to `1`. -/
theorem computeScale_monotone :
    (∀ w h fill a1 a2 : ℝ, 0 ≤ min w h → 0 < a1 → a1 ≤ a2 →
      computeScale w h a2 fill ≤ computeScale w h a1 fill) ∧
    (∀ w1 h1 w2 h2 maxA fill : ℝ, min w1 h1 ≤ min w2 h2 →
      computeScale w1 h1 maxA fill ≤ computeScale w2 h2 maxA fill) := by
  constructor
  · intro w h fill a1 a2 hwh h1 h12
    have h2 : 0 < a2 := lt_of_lt_of_le h1 h12
    simp only [computeScale, if_pos h1, if_pos h2]
    have hc : (0 : ℝ) < min (max fill 0.2) 0.95 := clampedFill_pos fill
    have hT : 0 ≤ min w h * (min (max fill 0.2) 0.95 * 0.5) * 0.9 := by
      have := mul_nonneg hwh hc.le
      nlinarith
    rw [div_eq_mul_inv, div_eq_mul_inv]
    exact mul_le_mul_of_nonneg_left (inv_anti₀ h1 h12) hT
  · intro w1 h1 w2 h2 maxA fill hmin
    by_cases hA : 0 < maxA
    · simp only [computeScale, if_pos hA]
      have hc : (0 : ℝ) < min (max fill 0.2) 0.95 := clampedFill_pos fill
      apply div_le_div_of_nonneg_right _ hA.le
      nlinarith
    · simp only [computeScale, if_neg hA, le_refl]

/-- C7 witness: both monotonicity branches of the amended theorem at
concrete inputs. -/
theorem computeScale_monotone_witness :
    computeScale 800 600 6.4 0.7 ≤ computeScale 800 600 3.2 0.7 ∧
    computeScale 800 400 6.4 0.7 ≤ computeScale 800 600 6.4 0.7 :=
  ⟨computeScale_monotone.1 800 600 0.7 3.2 6.4
      (le_min (by norm_num) (by norm_num)) (by norm_num) (by norm_num),
   computeScale_monotone.2 800 400 800 600 6.4 0.7
      (min_le_min le_rfl (by norm_num))⟩

/-! Helper lemmas about matrix application and rotations. -/

theorem Mat3.mul_mulVec (A B : Mat3) (v : Vec3) :
    (A.mul B).mulVec v = A.mulVec (B.mulVec v) := by
  simp only [Mat3.mul, Mat3.mulVec]
  ext <;> dsimp only <;> ring

theorem rollOf_none : rollOf none = 0 := rfl

theorem rollOf_horizontal : rollOf (some .horizontal) = 0 := rfl

theorem rollOf_vertical : rollOf (some .vertical) = Real.pi / 2 := rfl

theorem rollOf_diagonal : rollOf (some .diagonal) = Real.pi / 4 := rfl

theorem rotY_zero_mulVec (v : Vec3) : (makeRotationY 0).mulVec v = v := by
  ext <;> simp [makeRotationY, Mat3.mulVec]

theorem rotX_zero_mulVec (v : Vec3) : (makeRotationX 0).mulVec v = v := by
  ext <;> simp [makeRotationX, Mat3.mulVec]

theorem rotZ_zero_mulVec (v : Vec3) : (makeRotationZ 0).mulVec v = v := by
  ext <;> simp [makeRotationZ, Mat3.mulVec]

/-- C3: the path sampler and the per-frame evaluator map a planar
ellipse point into world space with the identical rotation sequence —
the matrix product `RotY(argOfPeriapsis) * RotX(inclination*tiltScale) *
RotY(lonOfNode) * RotZ(roll)` applied to the planar point, i.e. the
chain of single rotations in that fixed product order — so for equal
parametric angle the two produce the same pre-scale world point; the
screen-orientation roll is `0`, `pi/2` or `pi/4`. -/
theorem rotation_sequence_agree (p : PlanetConfig) (ts th : ℝ) :
    sampleWorldPoint p ts th = frameWorldPoint p ts th ∧
    sampleWorldPoint p ts th =
      (makeRotationY (p.argOfPeriapsis.getD 0)).mulVec
        ((makeRotationX (p.inclination * ts)).mulVec
          ((makeRotationY p.lonOfNode).mulVec
            ((makeRotationZ (rollOf p.orientation)).mulVec (planarPoint p th)))) ∧
    rollOf (some .horizontal) = 0 ∧
    rollOf (some .vertical) = Real.pi / 2 ∧
    rollOf (some .diagonal) = Real.pi / 4 ∧
    rollOf none = 0 := by
  refine ⟨rfl, ?_, rfl, rfl, rfl, rfl⟩
  simp only [sampleWorldPoint, orbitRot, Mat3.mul_mulVec]

/-- C8: for every body and segment count `N`, the sampled orbit path
has exactly `N + 1` points, the `i`-th point lying at the evenly spaced
angle `(i / N) * 2 * pi`, and its first and last points are equal. -/
theorem samplePath_count_spacing_closure (p : PlanetConfig) (ts : ℝ) (N : ℕ) :
    (samplePath p ts N).length = N + 1 ∧
    (∀ i : ℕ, i ≤ N → (samplePath p ts N).getD i ⟨0, 0, 0⟩ =
      sampleWorldPoint p ts (((i : ℝ) / (N : ℝ)) * Real.pi * 2)) ∧
    (samplePath p ts N).getD 0 ⟨0, 0, 0⟩ = (samplePath p ts N).getD N ⟨0, 0, 0⟩ := by
  have key : ∀ i : ℕ, i ≤ N → (samplePath p ts N).getD i ⟨0, 0, 0⟩ =
      sampleWorldPoint p ts (((i : ℝ) / (N : ℝ)) * Real.pi * 2) := by
    intro i hi
    have hi' : i < N + 1 := Nat.lt_succ_of_le hi
    simp only [samplePath, List.getD_eq_getElem?_getD, List.getElem?_map,
      List.getElem?_range, hi', if_true, Option.map_some', Option.getD_some]
  refine ⟨by simp only [samplePath, List.length_map, List.length_range], key, ?_⟩
  rcases Nat.eq_zero_or_pos N with hN | hN
  · subst hN
    rfl
  · rw [key 0 (Nat.zero_le N), key N le_rfl]
    have hNne : (N : ℝ) ≠ 0 := Nat.cast_ne_zero.mpr hN.ne'
    simp only [sampleWorldPoint, planarPoint]
    rw [Nat.cast_zero, zero_div, div_self hNne]
    have h1 : (1 : ℝ) * Real.pi * 2 = 2 * Real.pi := by ring
    have h0 : (0 : ℝ) * Real.pi * 2 = 0 := by ring
    rw [h1, h0, Real.cos_two_pi, Real.sin_two_pi, Real.cos_zero, Real.sin_zero]

/-- C8 witness: the theorem at the built-in body Mercury with four
segments, including the spacing clause at `i = 1`. -/
theorem samplePath_count_spacing_closure_witness :
    (samplePath mercury 3.5 4).length = 5 ∧
    (samplePath mercury 3.5 4).getD 1 ⟨0, 0, 0⟩ =
      sampleWorldPoint mercury 3.5 (((1 : ℕ) : ℝ) / ((4 : ℕ) : ℝ) * Real.pi * 2) ∧
    (samplePath mercury 3.5 4).getD 0 ⟨0, 0, 0⟩ =
      (samplePath mercury 3.5 4).getD 4 ⟨0, 0, 0⟩ :=
  ⟨(samplePath_count_spacing_closure mercury 3.5 4).1,
   (samplePath_count_spacing_closure mercury 3.5 4).2.1 1 (by norm_num),
   (samplePath_count_spacing_closure mercury 3.5 4).2.2⟩

/-! Helper lemmas about the JavaScript remainder and the evaluator. -/

theorem jsMod1_of_Ico (x : ℝ) (h0 : 0 ≤ x) (h1 : x < 1) : jsMod1 x = x := by
  unfold jsMod1 jsTrunc
  rw [if_pos h0, Int.floor_eq_zero_iff.mpr ⟨h0, h1⟩]
  simp

/-- For a body whose four rotation angles are all zero, the evaluator's
world point is the planar ellipse point itself. -/
theorem frameWorld_id_of_zero_angles (p : PlanetConfig) (ts th : ℝ)
    (harg : p.argOfPeriapsis = some 0) (hinc : p.inclination = 0)
    (hlon : p.lonOfNode = 0) (hor : p.orientation = none) :
    frameWorldPoint p ts th = planarPoint p th := by
  unfold frameWorldPoint frameRot
  rw [Mat3.mul_mulVec, Mat3.mul_mulVec, Mat3.mul_mulVec, harg, hinc, hlon, hor]
  simp only [Option.getD_some, rollOf_none, zero_mul]
  rw [rotZ_zero_mulVec, rotY_zero_mulVec, rotX_zero_mulVec, rotY_zero_mulVec]

/-- Parametric angle of the scenario body at times within the first
period. -/
theorem evalTheta_bodyC5 (t : ℝ) (h0 : 0 ≤ t / 10) (h1 : t / 10 < 1) :
    evalTheta bodyC5 t 1 = t / 10 * Real.pi * 2 := by
  unfold evalTheta progressOf thetaFromProgress
  have ht : t * 1 / bodyC5.period = t / 10 := by
    rw [show bodyC5.period = 10 from rfl]
    ring
  rw [ht, jsMod1_of_Ico _ h0 h1,
    show bodyC5.direction = some Dir.cw from rfl,
    show bodyC5.phase = some 0 from rfl]
  simp [Dir.val]

/-- C5: end-to-end scenario for the body `{a:2, e:0, period:10}` with
all angles zero, speedFactor 1, scale 1: position `(2,0,0)` at `t = 0`,
`(0,0,2)` at `t = 2.5`, `(-2,0,0)` at `t = 5` (exactly, in the real
model); and circular-orbit sanity for `a = 1, e = 0`: planar position
`(1,0,0)` at theta-progress `0` and `(0,0,1)` at progress `0.25`. -/
theorem evaluator_scenario :
    evalPosition bodyC5 0 1 3.5 1 ⟨0, 0, 0⟩ = ⟨2, 0, 0⟩ ∧
    evalPosition bodyC5 2.5 1 3.5 1 ⟨0, 0, 0⟩ = ⟨0, 0, 2⟩ ∧
    evalPosition bodyC5 5 1 3.5 1 ⟨0, 0, 0⟩ = ⟨-2, 0, 0⟩ ∧
    planarPoint bodyUnit (thetaFromProgress bodyUnit 0) = ⟨1, 0, 0⟩ ∧
    planarPoint bodyUnit (thetaFromProgress bodyUnit (1 / 4)) = ⟨0, 0, 1⟩ := by
  have hpos : ∀ t : ℝ, evalPosition bodyC5 t 1 3.5 1 ⟨0, 0, 0⟩ =
      planarPoint bodyC5 (evalTheta bodyC5 t 1) := by
    intro t
    simp only [evalPosition]
    rw [frameWorld_id_of_zero_angles bodyC5 3.5 _ rfl rfl rfl rfl]
    ext <;> simp
  refine ⟨?_, ?_, ?_, ?_, ?_⟩
  · have h0 : evalTheta bodyC5 0 1 = 0 := by
      have h := evalTheta_bodyC5 0 (by norm_num) (by norm_num)
      rw [h]
      ring
    rw [hpos 0, h0]
    ext <;> simp [planarPoint, bodyC5, semiMinor]
  · have h25 : evalTheta bodyC5 2.5 1 = Real.pi / 2 := by
      have h := evalTheta_bodyC5 2.5 (by norm_num) (by norm_num)
      rw [h]
      ring
    rw [hpos 2.5, h25]
    ext <;> simp [planarPoint, bodyC5, semiMinor]
  · have h5 : evalTheta bodyC5 5 1 = Real.pi := by
      have h := evalTheta_bodyC5 5 (by norm_num) (by norm_num)
      rw [h]
      ring
    rw [hpos 5, h5]
    ext <;> simp [planarPoint, bodyC5, semiMinor]
  · have hu0 : thetaFromProgress bodyUnit 0 = 0 := by
      unfold thetaFromProgress
      rw [show bodyUnit.direction = some Dir.cw from rfl,
        show bodyUnit.phase = some 0 from rfl]
      simp [Dir.val]
    rw [hu0]
    ext <;> simp [planarPoint, bodyUnit, semiMinor]
  · have hu4 : thetaFromProgress bodyUnit (1 / 4) = Real.pi / 2 := by
      unfold thetaFromProgress
      rw [show bodyUnit.direction = some Dir.cw from rfl,
        show bodyUnit.phase = some 0 from rfl]
      simp only [Option.getD_some, Dir.val]
      ring
    rw [hu4]
    ext <;> simp [planarPoint, bodyUnit, semiMinor]

theorem Dir.val_eq_toInt_cast (d : Dir) : d.val = (d.toInt : ℝ) := by
  cases d <;> simp [Dir.val, Dir.toInt]

/-- C6: the evaluator is periodic: for every body with positive period
`P`, every elapsed time `t`, tilt factor, computed scale and center, the
position at `t + P` with speedFactor 1 equals the position at `t`
(exactly, in the real model — the parametric angles differ by an
integer multiple of `2 * pi`). -/
theorem evaluator_periodic (p : PlanetConfig) (t ts cs : ℝ) (center : Vec3)
    (hP : 0 < p.period) :
    evalPosition p (t + p.period) 1 ts cs center =
      evalPosition p t 1 ts cs center := by
  have htheta : ∃ k : ℤ, evalTheta p (t + p.period) 1 =
      evalTheta p t 1 + (k : ℝ) * (2 * Real.pi) := by
    refine ⟨(p.direction.getD .cw).toInt *
      (1 - (jsTrunc (t * 1 / p.period + 1) - jsTrunc (t * 1 / p.period))), ?_⟩
    have hu : (t + p.period) * 1 / p.period = t * 1 / p.period + 1 := by
      field_simp
    unfold evalTheta progressOf thetaFromProgress jsMod1
    rw [hu]
    simp only [Dir.val_eq_toInt_cast]
    push_cast
    ring
  obtain ⟨k, hk⟩ := htheta
  have hcos : Real.cos (evalTheta p (t + p.period) 1) =
      Real.cos (evalTheta p t 1) := by
    rw [hk]
    exact Real.cos_add_int_mul_two_pi _ k
  have hsin : Real.sin (evalTheta p (t + p.period) 1) =
      Real.sin (evalTheta p t 1) := by
    rw [hk]
    exact Real.sin_add_int_mul_two_pi _ k
  simp only [evalPosition, frameWorldPoint, planarPoint]
  rw [hcos, hsin]

/-- C6 witness: the periodicity theorem at the scenario body (period
10) and `t = 0`. -/
theorem evaluator_periodic_witness :
    evalPosition bodyC5 (0 + bodyC5.period) 1 3.5 1 ⟨0, 0, 0⟩ =
      evalPosition bodyC5 0 1 3.5 1 ⟨0, 0, 0⟩ :=
  evaluator_periodic bodyC5 0 3.5 1 ⟨0, 0, 0⟩ (by norm_num [bodyC5])

/-! Helper lemmas: the three elementary rotations preserve the squared
Euclidean norm. -/

theorem normSq_rotY (th : ℝ) (v : Vec3) :
    normSq ((makeRotationY th).mulVec v) = normSq v := by
  simp only [makeRotationY, Mat3.mulVec, normSq]
  linear_combination (v.x ^ 2 + v.z ^ 2) * Real.sin_sq_add_cos_sq th

theorem normSq_rotX (th : ℝ) (v : Vec3) :
    normSq ((makeRotationX th).mulVec v) = normSq v := by
  simp only [makeRotationX, Mat3.mulVec, normSq]
  linear_combination (v.y ^ 2 + v.z ^ 2) * Real.sin_sq_add_cos_sq th

theorem normSq_rotZ (th : ℝ) (v : Vec3) :
    normSq ((makeRotationZ th).mulVec v) = normSq v := by
  simp only [makeRotationZ, Mat3.mulVec, normSq]
  linear_combination (v.x ^ 2 + v.y ^ 2) * Real.sin_sq_add_cos_sq th

/-- C10: for every body with `0 ≤ e < 1` and `a > 0`, any elapsed time,
speed factor, tilt factor, nonnegative uniform scale `s` and center, the
world position written by the evaluator lies within distance `a * s` of
the center: the rotations preserve the norm and the planar point has
norm at most `a`. -/
theorem evaluator_bounded (p : PlanetConfig) (t sf ts s : ℝ) (center : Vec3)
    (he0 : 0 ≤ p.e) (he1 : p.e < 1) (ha : 0 < p.a) (hs : 0 ≤ s) :
    dist3 (evalPosition p t sf ts s center) center ≤ p.a * s := by
  set th := evalTheta p t sf with hth
  have hplanar : normSq (planarPoint p th) ≤ p.a ^ 2 := by
    simp only [planarPoint, normSq, semiMinor]
    have h1 : (0 : ℝ) ≤ 1 - p.e * p.e := by nlinarith
    have h2 : Real.sqrt (1 - p.e * p.e) ^ 2 = 1 - p.e * p.e := Real.sq_sqrt h1
    have h3 := Real.sin_sq_add_cos_sq th
    nlinarith [sq_nonneg (p.e * (p.a * Real.sin th)), sq_nonneg (p.a * Real.sin th)]
  have hrot : normSq (frameWorldPoint p ts th) = normSq (planarPoint p th) := by
    unfold frameWorldPoint frameRot
    rw [Mat3.mul_mulVec, Mat3.mul_mulVec, Mat3.mul_mulVec,
      normSq_rotY, normSq_rotX, normSq_rotY, normSq_rotZ]
  have hbound : normSq (frameWorldPoint p ts th) ≤ p.a ^ 2 := by
    rw [hrot]
    exact hplanar
  have hdist : dist3 (evalPosition p t sf ts s center) center =
      Real.sqrt (s ^ 2 * normSq (frameWorldPoint p ts th)) := by
    simp only [dist3, evalPosition, normSq]
    congr 1
    ring
  rw [hdist]
  have h4 : s ^ 2 * normSq (frameWorldPoint p ts th) ≤ (p.a * s) ^ 2 := by
    have h5 := mul_le_mul_of_nonneg_left hbound (sq_nonneg s)
    nlinarith
  calc Real.sqrt (s ^ 2 * normSq (frameWorldPoint p ts th))
      ≤ Real.sqrt ((p.a * s) ^ 2) := Real.sqrt_le_sqrt h4
    _ = p.a * s := Real.sqrt_sq (mul_nonneg ha.le hs)

/-- C10 witness: the bound at the scenario body with scale 1 at
`t = 1`. -/
theorem evaluator_bounded_witness :
    dist3 (evalPosition bodyC5 1 1 3.5 1 ⟨0, 0, 0⟩) ⟨0, 0, 0⟩ ≤ bodyC5.a * 1 :=
  evaluator_bounded bodyC5 1 1 3.5 1 ⟨0, 0, 0⟩ (by norm_num [bodyC5])
    (by norm_num [bodyC5]) (by norm_num [bodyC5]) (by norm_num)

/-! Helper lemmas about the frame tick. -/

theorem tickStep_ne_name (t sf ts cs : ℝ) (center : Vec3)
    (r : String → Option GroupState) (q : PlanetConfig) (n : String)
    (hne : n ≠ q.name) :
    tickStep t sf ts cs center r q n = r n := by
  unfold tickStep
  cases hq : r q.name with
  | none => rfl
  | some g => simp [hne]

theorem tick_not_mem (t sf ts cs : ℝ) (center : Vec3) :
    ∀ (ps : List PlanetConfig) (r : String → Option GroupState) (n : String),
      n ∉ ps.map PlanetConfig.name →
      tick ps t sf ts cs center r n = r n := by
  intro ps
  induction ps with
  | nil =>
    intro r n _
    rfl
  | cons q qs ih =>
    intro r n hn
    simp only [List.map_cons, List.mem_cons, not_or] at hn
    obtain ⟨hn1, hn2⟩ := hn
    have hcons : tick (q :: qs) t sf ts cs center r =
        tick qs t sf ts cs center (tickStep t sf ts cs center r q) := rfl
    rw [hcons, ih _ n hn2, tickStep_ne_name t sf ts cs center r q n hn1]

/-- C9: on a frame tick over bodies with distinct names, a body whose
presentation handle is absent is skipped (its registry entry stays
absent) while every body whose handle is present is updated with its
evaluated position and incremented self-rotation; the tick is a total
function — one absent handle never aborts the traversal. -/
theorem tick_skips_absent_updates_present :
    ∀ (ps : List PlanetConfig) (t sf ts cs : ℝ) (center : Vec3)
      (refs : String → Option GroupState) (p : PlanetConfig),
      (ps.map PlanetConfig.name).Nodup → p ∈ ps →
      (refs p.name = none → tick ps t sf ts cs center refs p.name = none) ∧
      (∀ g, refs p.name = some g →
        tick ps t sf ts cs center refs p.name =
          some (updateGroup p t sf ts cs center g)) := by
  intro ps
  induction ps with
  | nil =>
    intro t sf ts cs center refs p _ hp
    exact absurd hp (List.not_mem_nil p)
  | cons q qs ih =>
    intro t sf ts cs center refs p hnd hp
    simp only [List.map_cons, List.nodup_cons] at hnd
    obtain ⟨hqnotin, hnd'⟩ := hnd
    have hcons : tick (q :: qs) t sf ts cs center refs =
        tick qs t sf ts cs center (tickStep t sf ts cs center refs q) := rfl
    rcases List.mem_cons.mp hp with rfl | hp'
    · constructor
      · intro habs
        have hstep : tickStep t sf ts cs center refs p = refs := by
          unfold tickStep
          rw [habs]
        rw [hcons, hstep, tick_not_mem t sf ts cs center qs refs p.name hqnotin,
          habs]
      · intro g hg
        have hstep : tickStep t sf ts cs center refs p p.name =
            some (updateGroup p t sf ts cs center g) := by
          unfold tickStep
          rw [hg]
          simp
        rw [hcons, tick_not_mem t sf ts cs center qs _ p.name hqnotin, hstep]
    · have hne : p.name ≠ q.name := by
        intro hEq
        exact hqnotin (hEq ▸ List.mem_map_of_mem PlanetConfig.name hp')
      have hstepval : tickStep t sf ts cs center refs q p.name = refs p.name :=
        tickStep_ne_name t sf ts cs center refs q p.name hne
      have hqs := ih t sf ts cs center (tickStep t sf ts cs center refs q) p hnd' hp'
      rw [hcons]
      exact ⟨fun habs => hqs.1 (hstepval.trans habs),
        fun g hg => hqs.2 g (hstepval.trans hg)⟩

/-- C9 witness: in a two-body system where body `A`'s handle is absent
and body `B`'s handle is present, the tick updates `B` and leaves `A`'s
entry absent. -/
theorem tick_skips_absent_updates_present_witness :
    tick [bodyA, bodyB] 0 1 3.5 1 ⟨0, 0, 0⟩ refsOnlyB bodyB.name =
      some (updateGroup bodyB 0 1 3.5 1 ⟨0, 0, 0⟩ ⟨⟨0, 0, 0⟩, 0⟩) ∧
    tick [bodyA, bodyB] 0 1 3.5 1 ⟨0, 0, 0⟩ refsOnlyB bodyA.name = none := by
  have hnodup : ([bodyA, bodyB].map PlanetConfig.name).Nodup := by
    have hmap : [bodyA, bodyB].map PlanetConfig.name = ["A", "B"] := rfl
    rw [hmap]
    decide
  constructor
  · exact (tick_skips_absent_updates_present [bodyA, bodyB] 0 1 3.5 1 ⟨0, 0, 0⟩
      refsOnlyB bodyB hnodup (by simp)).2 ⟨⟨0, 0, 0⟩, 0⟩ (by simp [refsOnlyB, bodyB])
  · exact (tick_skips_absent_updates_present [bodyA, bodyB] 0 1 3.5 1 ⟨0, 0, 0⟩
      refsOnlyB bodyA hnodup (by simp)).1 (by simp [refsOnlyB, bodyA])

end Solar
